import Mathlib

/-!
IEC 60870-5-104 master: iec104_class.h

A shallow embedding of the header `iec104_class.h`: the information object
record `iec_obj` with its bit-fields and anonymous unions, the constants of
`iec104_class` (type identifiers, causes of transmission, control octets,
qualifiers, timer defaults), and the state of the protocol engine. The
bodies of the engine's member functions are not in the header; they are
modelled from the specification of the engine and marked so.

Unsigned machine integers are natural numbers; a store into a field of width
w keeps the value modulo 2^w. A bit-field occupies the low bits of its
storage unit, the first declared member at bit 0, as on the little-endian
targets the tester is built for.
-/

/-! ## The record iec_obj -/

/-- Conversion of an unsigned value to an unsigned bit-field (or unsigned
integer) of `w` bits: the value modulo 2^w. -/
def bitfield_store (w v : Nat) : Nat := v % 2 ^ w

/-- Write of a `w`-bit member that starts at bit 0 of a storage unit: the low
`w` bits are replaced, the other bits of the unit are kept. -/
def union_store (w unit v : Nat) : Nat := unit / 2 ^ w * 2 ^ w + bitfield_store w v

/-- Read of a `w`-bit member that starts at bit 0 of a storage unit. -/
def union_load (w unit : Nat) : Nat := unit % 2 ^ w

/-- The struct `iec_obj` (iec104_class.h, lines 43-93). Every member that is
an integer or a bit-field is a field here. The first anonymous union (ov, sp,
dp, scs, dcs, rcs) is its one octet of storage `state_union`; the second
(stcd, bsi, bcr, spe, oci, qpa, kpa, frz) is the four octets `value_union`
that `bcr` covers. The members `value` (double), `timetag` and `elapsed_time`
have types declared in iec104_types.h and are not carried. -/
structure iec_obj where
  address : Nat
  type : Nat
  cause : Nat
  ca : Nat
  state_union : Nat
  qu : Nat
  se : Nat
  t : Nat
  bl : Nat
  sb : Nat
  nt : Nat
  iv : Nat
  pn : Nat
  cy : Nat
  cadj : Nat
  value_union : Nat
  sq : Nat
  pop : Nat
  lpc : Nat
  ei : Nat
  test : Nat
deriving DecidableEq, Repr

namespace iec_obj

/-- An object whose storage is all zero (`memset(&obj, 0, sizeof obj)`). -/
def zero : iec_obj :=
  { address := 0, type := 0, cause := 0, ca := 0, state_union := 0, qu := 0, se := 0,
    t := 0, bl := 0, sb := 0, nt := 0, iv := 0, pn := 0, cy := 0, cadj := 0,
    value_union := 0, sq := 0, pop := 0, lpc := 0, ei := 0, test := 0 }

/-! ### Plain members: `uint8_t type`, `uint8_t qu : 5`, ... -/

/-- The assignment `obj.type = v` (`uint8_t type`). -/
def set_type (o : iec_obj) (v : Nat) : iec_obj := { o with type := bitfield_store 8 v }

/-- The assignment `obj.cause = v` (`uint8_t cause`). -/
def set_cause (o : iec_obj) (v : Nat) : iec_obj := { o with cause := bitfield_store 8 v }

/-- The assignment `obj.qu = v` (`uint8_t qu : 5`). -/
def set_qu (o : iec_obj) (v : Nat) : iec_obj := { o with qu := bitfield_store 5 v }

/-- The assignment `obj.se = v` (`uint8_t se : 1`). -/
def set_se (o : iec_obj) (v : Nat) : iec_obj := { o with se := bitfield_store 1 v }

/-- The assignment `obj.pn = v` (`uint8_t pn : 1`). -/
def set_pn (o : iec_obj) (v : Nat) : iec_obj := { o with pn := bitfield_store 1 v }

/-- The assignment `obj.cy = v` (`uint8_t cy : 1`). -/
def set_cy (o : iec_obj) (v : Nat) : iec_obj := { o with cy := bitfield_store 1 v }

/-- The assignment `obj.cadj = v` (`uint8_t cadj : 1`). -/
def set_cadj (o : iec_obj) (v : Nat) : iec_obj := { o with cadj := bitfield_store 1 v }

/-- The assignment `obj.sq = v` (`uint8_t sq : 5`). -/
def set_sq (o : iec_obj) (v : Nat) : iec_obj := { o with sq := bitfield_store 5 v }

/-! ### Members of the first anonymous union (lines 55-62)

Each member of a union is allocated as if it were the only member, so each
bit-field starts at bit 0 of the union: all six are views of the low bits of
the one octet `state_union`. -/

/-- Read of `ov` (`uint8_t ov : 1`). -/
def ov (o : iec_obj) : Nat := union_load 1 o.state_union

/-- Read of `sp` (`uint8_t sp : 1`). -/
def sp (o : iec_obj) : Nat := union_load 1 o.state_union

/-- Read of `dp` (`uint8_t dp : 2`). -/
def dp (o : iec_obj) : Nat := union_load 2 o.state_union

/-- Read of `scs` (`uint8_t scs : 1`). -/
def scs (o : iec_obj) : Nat := union_load 1 o.state_union

/-- Read of `dcs` (`uint8_t dcs : 2`). -/
def dcs (o : iec_obj) : Nat := union_load 2 o.state_union

/-- Read of `rcs` (`uint8_t rcs : 2`). -/
def rcs (o : iec_obj) : Nat := union_load 2 o.state_union

/-- The assignment `obj.ov = v`. -/
def set_ov (o : iec_obj) (v : Nat) : iec_obj :=
  { o with state_union := union_store 1 o.state_union v }

/-- The assignment `obj.sp = v`. -/
def set_sp (o : iec_obj) (v : Nat) : iec_obj :=
  { o with state_union := union_store 1 o.state_union v }

/-- The assignment `obj.dp = v`. -/
def set_dp (o : iec_obj) (v : Nat) : iec_obj :=
  { o with state_union := union_store 2 o.state_union v }

/-- The assignment `obj.scs = v`. -/
def set_scs (o : iec_obj) (v : Nat) : iec_obj :=
  { o with state_union := union_store 1 o.state_union v }

/-- The assignment `obj.dcs = v`. -/
def set_dcs (o : iec_obj) (v : Nat) : iec_obj :=
  { o with state_union := union_store 2 o.state_union v }

/-- The assignment `obj.rcs = v`. -/
def set_rcs (o : iec_obj) (v : Nat) : iec_obj :=
  { o with state_union := union_store 2 o.state_union v }

/-! ### Members of the second anonymous union (lines 78-87)

The integer members bcr, qpa, kpa and frz are views of the low bits of the
four octets `value_union`, least significant octet first. The members stcd,
bsi, spe and oci have struct types declared in iec104_types.h and are not
carried. -/

/-- Read of `bcr` (`uint32_t bcr`). -/
def bcr (o : iec_obj) : Nat := union_load 32 o.value_union

/-- Read of `qpa` (`uint8_t qpa`). -/
def qpa (o : iec_obj) : Nat := union_load 8 o.value_union

/-- Read of `kpa` (`uint8_t kpa : 6`). -/
def kpa (o : iec_obj) : Nat := union_load 6 o.value_union

/-- Read of `frz` (`uint8_t frz : 2`). -/
def frz (o : iec_obj) : Nat := union_load 2 o.value_union

/-- The assignment `obj.bcr = v`. -/
def set_bcr (o : iec_obj) (v : Nat) : iec_obj :=
  { o with value_union := union_store 32 o.value_union v }

/-- The assignment `obj.qpa = v`. -/
def set_qpa (o : iec_obj) (v : Nat) : iec_obj :=
  { o with value_union := union_store 8 o.value_union v }

/-- The assignment `obj.kpa = v`. -/
def set_kpa (o : iec_obj) (v : Nat) : iec_obj :=
  { o with value_union := union_store 6 o.value_union v }

/-- The assignment `obj.frz = v`. -/
def set_frz (o : iec_obj) (v : Nat) : iec_obj :=
  { o with value_union := union_store 2 o.value_union v }

end iec_obj

/-! ## The constants of iec104_class -/

namespace iec104_class

/-! ### Type identifiers (lines 99-165) -/

def M_SP_NA_1 : Nat := 1
def M_DP_NA_1 : Nat := 3
def M_ST_NA_1 : Nat := 5
def M_BO_NA_1 : Nat := 7
def M_ME_NA_1 : Nat := 9
def M_ME_NB_1 : Nat := 11
def M_ME_NC_1 : Nat := 13
def M_IT_NA_1 : Nat := 15
def M_PS_NA_1 : Nat := 20
def M_ME_ND_1 : Nat := 21
def M_SP_TB_1 : Nat := 30
def M_DP_TB_1 : Nat := 31
def M_ST_TB_1 : Nat := 32
def M_BO_TB_1 : Nat := 33
def M_ME_TD_1 : Nat := 34
def M_ME_TE_1 : Nat := 35
def M_ME_TF_1 : Nat := 36
def M_IT_TB_1 : Nat := 37
def M_EP_TD_1 : Nat := 38
def M_EP_TE_1 : Nat := 39
def M_EP_TF_1 : Nat := 40
def C_SC_NA_1 : Nat := 45
def C_DC_NA_1 : Nat := 46
def C_RC_NA_1 : Nat := 47
def C_SE_NA_1 : Nat := 48
def C_SE_NB_1 : Nat := 49
def C_SE_NC_1 : Nat := 50
def C_BO_NA_1 : Nat := 51
def C_SC_TA_1 : Nat := 58
def C_DC_TA_1 : Nat := 59
def C_RC_TA_1 : Nat := 60
def C_SE_TA_1 : Nat := 61
def C_SE_TB_1 : Nat := 62
def C_SE_TC_1 : Nat := 63
def C_BO_TA_1 : Nat := 64
def M_EI_NA_1 : Nat := 70
def C_IC_NA_1 : Nat := 100
def C_CI_NA_1 : Nat := 101
def C_RD_NA_1 : Nat := 102
def C_CS_NA_1 : Nat := 103
def C_RP_NA_1 : Nat := 105
def C_TS_TA_1 : Nat := 107
def P_ME_NA_1 : Nat := 110
def P_ME_NB_1 : Nat := 111
def P_ME_NC_1 : Nat := 112
def P_AC_NA_1 : Nat := 113

/-- Every type identifier the class declares, in declaration order. -/
def type_identifiers : List Nat :=
  [M_SP_NA_1, M_DP_NA_1, M_ST_NA_1, M_BO_NA_1, M_ME_NA_1, M_ME_NB_1, M_ME_NC_1, M_IT_NA_1,
   M_PS_NA_1, M_ME_ND_1, M_SP_TB_1, M_DP_TB_1, M_ST_TB_1, M_BO_TB_1, M_ME_TD_1, M_ME_TE_1,
   M_ME_TF_1, M_IT_TB_1, M_EP_TD_1, M_EP_TE_1, M_EP_TF_1, C_SC_NA_1, C_DC_NA_1, C_RC_NA_1,
   C_SE_NA_1, C_SE_NB_1, C_SE_NC_1, C_BO_NA_1, C_SC_TA_1, C_DC_TA_1, C_RC_TA_1, C_SE_TA_1,
   C_SE_TB_1, C_SE_TC_1, C_BO_TA_1, M_EI_NA_1, C_IC_NA_1, C_CI_NA_1, C_RD_NA_1, C_CS_NA_1,
   C_RP_NA_1, C_TS_TA_1, P_ME_NA_1, P_ME_NB_1, P_ME_NC_1, P_AC_NA_1]

/-- The monitored types with a time tag, M_SP_TB_1 .. M_EP_TF_1. -/
def time_tagged_monitor_types : List Nat :=
  [M_SP_TB_1, M_DP_TB_1, M_ST_TB_1, M_BO_TB_1, M_ME_TD_1, M_ME_TE_1, M_ME_TF_1, M_IT_TB_1,
   M_EP_TD_1, M_EP_TE_1, M_EP_TF_1]

/-- The commands without a time tag, C_SC_NA_1 .. C_BO_NA_1. -/
def command_types : List Nat :=
  [C_SC_NA_1, C_DC_NA_1, C_RC_NA_1, C_SE_NA_1, C_SE_NB_1, C_SE_NC_1, C_BO_NA_1]

/-- The commands with a time tag, C_SC_TA_1 .. C_BO_TA_1, each at the place
of its counterpart in `command_types`. -/
def time_tagged_command_types : List Nat :=
  [C_SC_TA_1, C_DC_TA_1, C_RC_TA_1, C_SE_TA_1, C_SE_TB_1, C_SE_TC_1, C_BO_TA_1]

/-! ### Causes of transmission (lines 167-175) -/

def CYCLIC : Nat := 1
def BGSCAN : Nat := 2
def SPONTANEOUS : Nat := 3
def REQUEST : Nat := 5
def ACTIVATION : Nat := 6
def ACTCONFIRM : Nat := 7
def DEACTIVATION : Nat := 8
def ACTTERM : Nat := 10

/-- Every cause of transmission the class declares, in declaration order. -/
def causes : List Nat :=
  [CYCLIC, BGSCAN, SPONTANEOUS, REQUEST, ACTIVATION, ACTCONFIRM, DEACTIVATION, ACTTERM]

/-! ### Control octets and frame bytes (lines 177-186) -/

def SUPERVISORY : Nat := 0x01
def STARTDTACT : Nat := 0x07
def STARTDTCON : Nat := 0x0B
def STOPDTACT : Nat := 0x13
def STOPDTCON : Nat := 0x23
def TESTFRACT : Nat := 0x43
def TESTFRCON : Nat := 0x83
def INTERROGATION : Nat := 0x64
def START : Nat := 0x68
def RESET : Nat := 0x69

/-- The six U-format control octets, in declaration order. -/
def u_controls : List Nat :=
  [STARTDTACT, STARTDTCON, STOPDTACT, STOPDTCON, TESTFRACT, TESTFRCON]

/-! ### Qualifiers (lines 188-192) -/

def POSITIVE : Nat := 0
def NEGATIVE : Nat := 1

def SELECT : Nat := 1
def EXECUTE : Nat := 0

/-! ### Timer defaults, in seconds (lines 247-252) -/

def t3_testfr : Int := 10
def t2_supervisory : Int := 8
def t1_startdtact : Int := 6
def gi_retry_time : Int := 45

/-- The default of the argument of `solicitInterrogation(char group = 20)`
(line 205). -/
def solicitInterrogation_group_default : Nat := 20

end iec104_class

/-- The positions of the bits of `c` that are set, among bits `lo` .. `hi - 1`. -/
def set_bits (lo hi c : Nat) : List Nat :=
  (List.range' lo (hi - lo)).filter (fun i => c.testBit i)

/-- Modelled from the spec: the COT octet of the data unit identifier, whose
struct is declared in iec104_types.h. The low 6 bits are the cause, bit 6 is
P/N and bit 7 is T (test). -/
def cot_octet (cause pn t : Nat) : Nat :=
  bitfield_store 6 cause ||| (bitfield_store 1 pn <<< 6) ||| (bitfield_store 1 t <<< 7)

/-- Modelled from the spec: the cause in a COT octet, the octet masked with
its low 6 bits. -/
def cot_cause (octet : Nat) : Nat := octet &&& 0x3F

/-- Modelled from the spec: the P/N bit of a COT octet, bit 6. -/
def cot_pn (octet : Nat) : Nat := (octet >>> 6) &&& 1

/-- Modelled from the spec: the T bit of a COT octet, bit 7. -/
def cot_t (octet : Nat) : Nat := (octet >>> 7) &&& 1

/-! ## The protocol engine

The header declares the engine's state and entry points; their bodies are in
iec104_class.cpp. The definitions of this section follow the specification of
the engine (sections 3, 4.1 to 4.5, 7 and 8). Of the ASDU codec the check of
the declared object count against the length is modelled; the decoding of the
objects, the upstream callbacks and the workflow that follows a decoded ASDU
(interrogation confirmation and termination, command responses) are not. -/

/-- Modelled from the spec: the error kinds of section 7 with which the
receive path terminates the connection. The bodies that raise them are in
iec104_class.cpp. -/
inductive iec_error where
  | FramingError
  | SequenceViolation
  | UnknownControl
  | PayloadMismatch
deriving DecidableEq, Repr

/-- Modelled from the spec: the three APCI formats of section 4.1. -/
inductive apci_format where
  | I
  | S
  | U
deriving DecidableEq, Repr

/-- Modelled from the spec: classification by the low two bits of control
octet 1 (section 4.1): bit0 = 0 is I-format, bits 01 S-format, bits 11
U-format. -/
def apci_classify (c1 : Nat) : apci_format :=
  if c1 % 2 = 0 then apci_format.I
  else if c1 % 4 = 1 then apci_format.S
  else apci_format.U

/-- Modelled from the spec: a complete APDU as the framer hands it over
(section 4.1): start byte, length byte, four control octets, and the octets
of the ASDU. The struct iec_apdu itself is declared in iec104_types.h. -/
structure iec_apdu where
  start : Nat
  length : Nat
  c1 : Nat
  c2 : Nat
  c3 : Nat
  c4 : Nat
  asdu : List Nat
deriving DecidableEq, Repr

namespace iec_apdu

/-- Modelled from the spec: the send sequence number N(S) of an I-format
APDU, the 15 bits above bit 0 of control octets 1 and 2, little-endian. -/
def NS (p : iec_apdu) : Nat := (p.c1 % 256 + 256 * (p.c2 % 256)) / 2

/-- Modelled from the spec: the receive sequence number N(R), the 15 bits
above bit 0 of control octets 3 and 4, little-endian. -/
def NR (p : iec_apdu) : Nat := (p.c3 % 256 + 256 * (p.c4 % 256)) / 2

/-- Modelled from the spec: the framing conditions of section 4.1 on an APDU
of `sz` octets: start byte 0x68, length byte L with 4 ≤ L ≤ 253, L + 2 octets
in all, of which the ASDU is L - 4. -/
def well_framed (p : iec_apdu) (sz : Nat) : Bool :=
  decide (p.start = iec104_class.START ∧ 4 ≤ p.length ∧ p.length ≤ 253 ∧
    sz = p.length + 2 ∧ p.asdu.length + 4 = p.length)

end iec_apdu

/-- Modelled from the spec: what the ASDU codec makes of a received ASDU
(sections 4.2 and 7): decoded, of a type that is not in the catalog, or
rejected because the declared object count does not match the length. -/
inductive codec_verdict where
  | decoded
  | unsupported
  | mismatch
deriving DecidableEq, Repr

/-- Modelled from the spec: the length check of the ASDU codec (section 4.2).
The ASDU is the 6-octet data unit identifier followed by the objects. The low
7 bits of VSQ are the object count N (1..127), bit 7 is SQ: with SQ = 1 one
3-octet address is followed by N payloads, with SQ = 0 each of the N objects
carries its own address. The per-TI payload size table of the codec is the
parameter `payload_size`; a TI without an entry is not in the catalog. -/
def codec_check (payload_size : Nat → Option Nat) (asdu : List Nat) : codec_verdict :=
  match asdu with
  | ti :: vsq :: _cot :: _oa :: _ca_lo :: _ca_hi :: objects =>
    match payload_size ti with
    | none => codec_verdict.unsupported
    | some size =>
      let n := vsq % 128
      let expected := if vsq / 128 % 2 = 1 then 3 + n * size else n * (3 + size)
      if n ≠ 0 ∧ objects.length = expected then codec_verdict.decoded
      else codec_verdict.mismatch
  | _ => codec_verdict.mismatch

/-- Modelled from the spec: the rows of the table of section 4.2 that give
the payload size of one type identifier. -/
def spec_payload_size (ti : Nat) : Option Nat :=
  if ti = iec104_class.M_SP_NA_1 then some 1
  else if ti = iec104_class.M_DP_NA_1 then some 1
  else if ti = iec104_class.M_ST_NA_1 then some 2
  else if ti = iec104_class.M_BO_NA_1 then some 5
  else if ti = iec104_class.M_ME_NA_1 then some 3
  else if ti = iec104_class.M_ME_NB_1 then some 3
  else if ti = iec104_class.M_ME_NC_1 then some 5
  else if ti = iec104_class.M_IT_NA_1 then some 5
  else if ti = iec104_class.M_ME_ND_1 then some 2
  else if ti = iec104_class.M_EI_NA_1 then some 1
  else if ti = iec104_class.C_IC_NA_1 then some 1
  else if ti = iec104_class.C_CI_NA_1 then some 1
  else if ti = iec104_class.C_CS_NA_1 then some 7
  else if ti = iec104_class.C_TS_TA_1 then some 9
  else none

/-- The data members of `iec104_class` (iec104_class.h, lines 226-269) that
the engine's sequence, window, timer and connection logic uses, with the
header's names. The IP strings, the log buffer and the name maps are not
carried. Two fields are not in the header and come from the specification:
`ack_peer`, the last N(R) received from the peer (section 3, sequence state),
and `sent`, the frames handed to the transport hook sendTCP, oldest first. -/
structure iec104_class where
  VS : Nat
  VR : Nat
  tout_startdtact : Int
  tout_supervisory : Int
  tout_gi : Int
  tout_testfr : Int
  broken_msg : Bool
  connectedTCP : Bool
  seq_order_check : Bool
  masterAddress : Nat
  slaveAddress : Nat
  slaveASDUAddrCmd : Nat
  Port : Nat
  gi_period : Int
  test_command_count : Nat
  msg_supervisory : Int
  TxOk : Bool
  GIObjectCnt : Nat
  ack_peer : Nat
  sent : List (List Nat)
deriving DecidableEq, Repr

namespace iec104_class

/-- Modelled from the spec: the sequence counters count modulo 2^15
(section 3). -/
def seq_modulus : Nat := 2 ^ 15

/-- Modelled from the spec: window parameter k, the maximum number of
unacknowledged sent I-frames (section 3, default 12). -/
def window_k : Nat := 12

/-- Modelled from the spec: window parameter w, the number of received
I-frames after which an S-frame is sent (section 3, default 8). -/
def window_w : Int := 8

/-- Modelled from the spec: the value of a countdown that is not armed. The
spec only says that a timer expires at zero while armed; a disarmed countdown
holds a negative value here. -/
def timer_off : Int := -1

/-- Modelled from the spec: the connection object as created (section 3,
lifecycle): STOPPED, VS = VR = 0, TxOk = false, every timer disarmed, port
2404, the header's member initialisers. Sequence order checking is on until
disableSequenceOrderCheck is called; the addresses and the GI period are set
by the host. -/
def init : iec104_class :=
  { VS := 0, VR := 0, tout_startdtact := timer_off, tout_supervisory := timer_off,
    tout_gi := timer_off, tout_testfr := timer_off, broken_msg := false,
    connectedTCP := false, seq_order_check := true, masterAddress := 0, slaveAddress := 0,
    slaveASDUAddrCmd := 0, Port := 2404, gi_period := 0, test_command_count := 0,
    msg_supervisory := 0, TxOk := false, GIObjectCnt := 0, ack_peer := 0, sent := [] }

/-- Modelled from the spec: setter of the secondary address, the common
address of ASDU (`unsigned short slaveAddress`). -/
def setSecondaryAddress (s : iec104_class) (addr : Nat) : iec104_class :=
  { s with slaveAddress := bitfield_store 16 addr }

/-- Modelled from the spec: setter of the primary (originator) address
(`unsigned char masterAddress`). -/
def setPrimaryAddress (s : iec104_class) (addr : Nat) : iec104_class :=
  { s with masterAddress := bitfield_store 8 addr }

/-- Modelled from the spec: the transport hook sendTCP; the frame is appended
to the record of what was handed to the transport. -/
def sendTCP (s : iec104_class) (data : List Nat) : iec104_class :=
  { s with sent := s.sent ++ [data] }

/-- Modelled from the spec: a U-format APDU, control octet 1 the action and
the remaining control octets zero (section 4.1). -/
def u_frame (control : Nat) : List Nat := [START, 4, control, 0, 0, 0]

/-- Modelled from the spec: an S-format APDU carrying N(R) (section 4.1). -/
def s_frame (nr : Nat) : List Nat :=
  [START, 4, SUPERVISORY, 0, (2 * nr) % 256, (2 * nr) / 256 % 256]

/-- Modelled from the spec: an I-format APDU: start byte, length (the number
of octets that follow it), N(S) and N(R) in 15 bits little-endian above bit 0,
then the ASDU (section 4.1). -/
def i_frame (ns nr : Nat) (asdu : List Nat) : List Nat :=
  [START, 4 + asdu.length, (2 * ns) % 256, (2 * ns) / 256 % 256,
    (2 * nr) % 256, (2 * nr) / 256 % 256] ++ asdu

/-- Modelled from the spec: the unacknowledged-send count, VS minus the last
acknowledgement from the peer, modulo 2^15 (section 3). -/
def unacked (s : iec104_class) : Nat :=
  (s.VS + seq_modulus - s.ack_peer % seq_modulus) % seq_modulus

/-- Modelled from the spec: an S-frame carrying the current VR is sent, the
received-since-ack counter is zeroed and t2 is disarmed (section 4.3,
step 4). -/
def sendSupervisory (s : iec104_class) : iec104_class :=
  sendTCP { s with msg_supervisory := 0, tout_supervisory := timer_off } (s_frame s.VR)

/-- Modelled from the spec: STARTDT-act is sent and t1 is armed at 6 s
(section 4.4). -/
def sendStartDTACT (s : iec104_class) : iec104_class :=
  sendTCP { s with tout_startdtact := t1_startdtact } (u_frame STARTDTACT)

/-- Modelled from the spec: onConnectTCP arms STARTDT and starts t1
(section 3, lifecycle; section 4.4, STOPPED to STARTDT_WAIT). -/
def onConnectTCP (s : iec104_class) : iec104_class :=
  sendStartDTACT { s with connectedTCP := true, TxOk := false, VS := 0, VR := 0, ack_peer := 0,
                          msg_supervisory := 0 }

/-- Modelled from the spec: onDisconnectTCP returns to STOPPED and clears all
counters and timers (section 3, lifecycle). -/
def onDisconnectTCP (s : iec104_class) : iec104_class :=
  { s with connectedTCP := false, TxOk := false, VS := 0, VR := 0, ack_peer := 0,
           msg_supervisory := 0, GIObjectCnt := 0, tout_startdtact := timer_off,
           tout_supervisory := timer_off, tout_gi := timer_off, tout_testfr := timer_off }

/-- Modelled from the spec: the send path of an I-frame (section 4.3 and
property 7 of section 8). In STOPPED state nothing is emitted; when the
unacknowledged set has reached k the frame is refused; otherwise the frame is
stamped with the current VS and VR, handed to the transport, and VS is
incremented modulo 2^15. The result tells whether the frame was sent. -/
def send_I (s : iec104_class) (asdu : List Nat) : Bool × iec104_class :=
  if s.TxOk = false then (false, s)
  else if window_k ≤ unacked s then (false, s)
  else (true, sendTCP { s with VS := (s.VS + 1) % seq_modulus } (i_frame s.VS s.VR asdu))

/-- Modelled from the spec: the 6-octet data unit identifier of an ASDU with
one object (VSQ = 1) followed by the 3-octet object address, all multi-octet
integers little-endian (section 4.2). -/
def asdu_header (ti cause oa ca ioa : Nat) : List Nat :=
  [bitfield_store 8 ti, 1, cot_octet cause 0 0, bitfield_store 8 oa,
    ca % 256, ca / 256 % 256, ioa % 256, ioa / 256 % 256, ioa / 65536 % 256]

/-- Modelled from the spec: solicitInterrogation sends C_IC_NA_1 with the
qualifier of interrogation `group`, COT = ACTIVATION, the originator address
and CA = slave-CA, object address 0 (section 4.5). -/
def solicitInterrogation (s : iec104_class) (group : Nat) : iec104_class :=
  (send_I s (asdu_header C_IC_NA_1 ACTIVATION s.masterAddress s.slaveAddress 0
    ++ [bitfield_store 8 group])).2

/-- Modelled from the spec: solicitGI is the interrogation with QOI = 20, the
default of the group argument; the retry countdown is armed at gi_retry_time
(section 4.5). -/
def solicitGI (s : iec104_class) : iec104_class :=
  { solicitInterrogation s solicitInterrogation_group_default with tout_gi := gi_retry_time }

/-- Modelled from the spec: the common address a command is sent to, the
separate CA for commands if one is configured, else the slave CA
(section 3). -/
def command_ca (s : iec104_class) : Nat :=
  if s.slaveASDUAddrCmd = 0 then s.slaveAddress else s.slaveASDUAddrCmd

/-- Modelled from the spec: sendCommand (section 4.5 and property 7 of
section 8). The caller supplies an object with TI in 45..64; the engine sends
one ASDU with one object and COT = ACTIVATION through the I-frame send path,
and returns whether it was sent. An object of another type is not sent. The
per-TI payload encoder of the ASDU codec is the parameter `payload`. -/
def sendCommand (payload : iec_obj → List Nat) (s : iec104_class) (obj : iec_obj) :
    Bool × iec104_class :=
  if s.TxOk = false then (false, s)
  else if obj.type < C_SC_NA_1 ∨ C_BO_TA_1 < obj.type then (false, s)
  else send_I s (asdu_header obj.type ACTIVATION s.masterAddress (command_ca s) obj.address
    ++ payload obj)

/-- Modelled from the spec: the acknowledgement carried by a received N(R)
(section 4.3, step 3): the peer's N(R) is recorded, and t1 is reset when no
sent I-frame remains unacknowledged. -/
def acknowledge (s : iec104_class) (nr : Nat) : iec104_class :=
  let s1 := { s with ack_peer := nr }
  if unacked s1 = 0 then { s1 with tout_startdtact := timer_off } else s1

/-- Modelled from the spec: step 1 of section 4.3 when the frame is not
refused: if the peer's N(S) differs from VR (sequence order checking being
off), VR is realigned to N(S). -/
def realign (s : iec104_class) (ns : Nat) : iec104_class :=
  if ns ≠ s.VR then { s with VR := ns } else s

/-- Modelled from the spec: step 2 of section 4.3, VR is incremented modulo
2^15. -/
def increment_VR (s : iec104_class) : iec104_class :=
  { s with VR := (s.VR + 1) % seq_modulus }

/-- Modelled from the spec: step 4 of section 4.3. The received-since-ack
counter is incremented; when it reaches w an S-frame with the current VR is
sent at once and the counter zeroed, otherwise t2 is armed if it is not
already. Traffic resets the idle timer t3 (section 4.4). -/
def schedule_ack (s : iec104_class) : iec104_class :=
  let received := { s with msg_supervisory := s.msg_supervisory + 1, tout_testfr := t3_testfr }
  if received.msg_supervisory = window_w then sendSupervisory received
  else if received.tout_supervisory < 0 then
    { received with tout_supervisory := t2_supervisory }
  else received

/-- Modelled from the spec: the accounting of a received I-frame with send
sequence number `ns` and receive sequence number `nr` (section 4.3, steps 1
to 4). An N(S) that differs from VR while sequence order checking is on drops
the connection with a sequence violation. -/
def account_I (s : iec104_class) (ns nr : Nat) : Except iec_error iec104_class :=
  if ns ≠ s.VR ∧ s.seq_order_check = true then Except.error iec_error.SequenceViolation
  else Except.ok (schedule_ack (acknowledge (increment_VR (realign s ns)) nr))

/-- Modelled from the spec: the handling of a received U-format APDU
(section 4.4): STARTDT-con enters STARTED; TESTFR-act and STARTDT-act are
echoed with their confirmation; TESTFR-con resets t1; on STOPDT-act the
engine replies STOPDT-con and returns to STOPPED; a control octet that is
none of the six is a protocol violation. Replies are sent only when
`accountandrespond` is set. -/
def handle_U (s : iec104_class) (control : Nat) (accountandrespond : Bool) :
    Except iec_error iec104_class :=
  if control = STARTDTCON then
    Except.ok { s with tout_startdtact := timer_off, TxOk := true, tout_testfr := t3_testfr,
                       tout_gi := s.gi_period }
  else if control = STARTDTACT then
    Except.ok (if accountandrespond then sendTCP s (u_frame STARTDTCON) else s)
  else if control = TESTFRACT then
    Except.ok (if accountandrespond then sendTCP s (u_frame TESTFRCON) else s)
  else if control = TESTFRCON then
    Except.ok { s with tout_startdtact := timer_off }
  else if control = STOPDTACT then
    Except.ok (onDisconnectTCP (if accountandrespond then sendTCP s (u_frame STOPDTCON) else s))
  else if control = STOPDTCON then
    Except.ok s
  else Except.error iec_error.UnknownControl

/-- Modelled from the spec: the codec stage of a received I-frame (sections
4.2 and 7). A mismatch of the declared object count and the length drops the
connection; an ASDU of a type that is not in the catalog is dropped alone and
the connection survives; a decoded ASDU goes to the upstream callbacks, which
are not modelled. The state is the one the sequence accounting left. -/
def decode_I (payload_size : Nat → Option Nat) (papdu : iec_apdu) (s : iec104_class) :
    Except iec_error iec104_class :=
  if codec_check payload_size papdu.asdu = codec_verdict.mismatch then
    Except.error iec_error.PayloadMismatch
  else Except.ok s

/-- Modelled from the spec: parseAPDU (declared at lines 260-263; the body is
in iec104_class.cpp). An APDU that is not well framed is rejected
(section 4.1). Otherwise it is classified by control octet 1. With
`accountandrespond` set, an I-frame goes through the sequence accounting of
section 4.3 and then the codec, and an S-frame acknowledges; with it clear
the APDU is processed out of the normal handshake and the counters are left
alone. An error result is a dropped connection. The argument `sz` is the
size of the APDU in octets. -/
def parseAPDU (payload_size : Nat → Option Nat) (s : iec104_class) (papdu : iec_apdu)
    (sz : Nat) (accountandrespond : Bool) : Except iec_error iec104_class :=
  if papdu.well_framed sz = false then Except.error iec_error.FramingError
  else
    match apci_classify papdu.c1 with
    | apci_format.I =>
      if accountandrespond then
        match account_I s papdu.NS papdu.NR with
        | Except.error e => Except.error e
        | Except.ok accounted => decode_I payload_size papdu accounted
      else decode_I payload_size papdu s
    | apci_format.S =>
      if accountandrespond then
        Except.ok { acknowledge s papdu.NR with tout_testfr := t3_testfr }
      else Except.ok s
    | apci_format.U => handle_U s (papdu.c1 % 256) accountandrespond

end iec104_class

/-- Modelled from the spec: the general interrogation frame of scenario S2,
`68 0E 00 00 00 00 64 01 06 00 01 00 00 00 00 14`. -/
def S2_GI_frame : List Nat :=
  [0x68, 0x0E, 0x00, 0x00, 0x00, 0x00, 0x64, 0x01, 0x06, 0x00, 0x01, 0x00, 0x00, 0x00, 0x00, 0x14]

/-- Modelled from the spec: the STARTDT-con frame of scenario S1,
`68 04 0B 00 00 00`, as an APDU. -/
def S1_STARTDTCON : iec_apdu :=
  { start := 0x68, length := 0x04, c1 := 0x0B, c2 := 0, c3 := 0, c4 := 0, asdu := [] }

/-- The connection of scenarios S1 and S2: created, primary address 0 and
secondary address 1 set by the host, TCP connected, STARTDT confirmed. -/
def S2_state : Except iec_error iec104_class :=
  iec104_class.parseAPDU spec_payload_size
    (iec104_class.onConnectTCP
      (iec104_class.setSecondaryAddress (iec104_class.setPrimaryAddress iec104_class.init 0) 1))
    S1_STARTDTCON 6 true


/-- Modelled from the spec: the qualifier octet of a single command, the
command state in bit 0, QU in bits 2..6 and SE in bit 7 (section 4.6). -/
def single_command_octet (obj : iec_obj) : Nat :=
  obj.scs ||| (bitfield_store 5 obj.qu <<< 2) ||| (bitfield_store 1 obj.se <<< 7)

/-- The command of scenario S5: TI = 45 (C_SC_NA_1), IOA = 100, SCS = 1,
SE = 0 (execute). -/
def S5_command : iec_obj :=
  (({ iec_obj.zero with address := 100 }.set_type iec104_class.C_SC_NA_1).set_scs 1).set_se
    iec104_class.EXECUTE

/-- A connection that is TCP connected and has sent STARTDT-act but has not
received the confirmation: TxOk is false. -/
def startdt_pending : iec104_class := iec104_class.onConnectTCP iec104_class.init

/-- C1: the six U-format control octets are 0x07, 0x0B, 0x13, 0x23, 0x43 and
0x83; they are pairwise distinct; each has its low two bits equal to 11 and
exactly one of bits 2..7 set, bit 2, 3, 4, 5, 6 and 7 in declaration order, so
a different bit for each; and SUPERVISORY = 0x01 has its low two bits equal
to 01. -/
theorem u_format_control_octets :
    iec104_class.STARTDTACT = 0x07 ∧ iec104_class.STARTDTCON = 0x0B ∧
    iec104_class.STOPDTACT = 0x13 ∧ iec104_class.STOPDTCON = 0x23 ∧
    iec104_class.TESTFRACT = 0x43 ∧ iec104_class.TESTFRCON = 0x83 ∧
    iec104_class.u_controls.Pairwise (fun a b => a ≠ b) ∧
    (∀ c ∈ iec104_class.u_controls, c % 4 = 3 ∧ (set_bits 2 8 c).length = 1) ∧
    iec104_class.u_controls.map (set_bits 2 8) = [[2], [3], [4], [5], [6], [7]] ∧
    (iec104_class.u_controls.map (set_bits 2 8)).Pairwise (fun a b => a ≠ b) ∧
    iec104_class.SUPERVISORY = 0x01 ∧ iec104_class.SUPERVISORY % 4 = 1 := by
  decide

/-- C2: the type identifiers named by the table of the spec have the numbers
of the table; the time-tagged monitored types are exactly 30..40, the
commands exactly 45..51 and the time-tagged commands exactly 58..64, each
time-tagged command being its untagged counterpart plus 13; all declared type
identifiers are pairwise distinct and below 256, and each is stored unchanged
in the 8-bit member `type` of iec_obj. -/
theorem type_identifier_values :
    iec104_class.M_SP_NA_1 = 1 ∧ iec104_class.M_DP_NA_1 = 3 ∧ iec104_class.M_ST_NA_1 = 5 ∧
    iec104_class.M_BO_NA_1 = 7 ∧ iec104_class.M_ME_NA_1 = 9 ∧ iec104_class.M_ME_NB_1 = 11 ∧
    iec104_class.M_ME_NC_1 = 13 ∧ iec104_class.M_IT_NA_1 = 15 ∧ iec104_class.M_ME_ND_1 = 21 ∧
    iec104_class.M_EI_NA_1 = 70 ∧ iec104_class.C_IC_NA_1 = 100 ∧ iec104_class.C_CI_NA_1 = 101 ∧
    iec104_class.C_CS_NA_1 = 103 ∧ iec104_class.C_TS_TA_1 = 107 ∧
    iec104_class.time_tagged_monitor_types = List.range' 30 11 ∧
    iec104_class.command_types = List.range' 45 7 ∧
    iec104_class.time_tagged_command_types = List.range' 58 7 ∧
    iec104_class.time_tagged_command_types = iec104_class.command_types.map (fun ti => ti + 13) ∧
    iec104_class.type_identifiers.Pairwise (fun a b => a ≠ b) ∧
    (∀ ti ∈ iec104_class.type_identifiers, ti < 256) ∧
    (∀ ti ∈ iec104_class.type_identifiers, ∀ o : iec_obj, (o.set_type ti).type = ti) := by
  refine ⟨rfl, rfl, rfl, rfl, rfl, rfl, rfl, rfl, rfl, rfl, rfl, rfl, rfl, rfl, rfl, rfl, rfl,
    rfl, by decide, by decide, ?_⟩
  intro ti hti o
  have hlt : ti < 256 := by
    have hall : ∀ x ∈ iec104_class.type_identifiers, x < 256 := by decide
    exact hall ti hti
  show ti % 2 ^ 8 = ti
  exact Nat.mod_eq_of_lt hlt

/-- Masking a COT octet with its low 6 bits gives back what was stored in the
6-bit cause, whatever is stored in the P/N and T bits. -/
theorem cot_cause_cot_octet (cause pn t : Nat) :
    cot_cause (cot_octet cause pn t) = cause % 64 := by
  have key : ∀ a < 64, ∀ b < 2, ∀ d < 2, (a ||| (b <<< 6) ||| (d <<< 7)) &&& 0x3F = a := by
    decide
  have ha : cause % 64 < 64 := Nat.mod_lt _ (by decide)
  have hb : pn % 2 < 2 := Nat.mod_lt _ (by decide)
  have hd : t % 2 < 2 := Nat.mod_lt _ (by decide)
  exact key _ ha _ hb _ hd

/-- The P/N and T bits of a COT octet are read back as stored, each modulo 2. -/
theorem cot_flags_cot_octet (cause pn t : Nat) :
    cot_pn (cot_octet cause pn t) = pn % 2 ∧ cot_t (cot_octet cause pn t) = t % 2 := by
  have key : ∀ a < 64, ∀ b < 2, ∀ d < 2,
      ((a ||| (b <<< 6) ||| (d <<< 7)) >>> 6) &&& 1 = b ∧
      ((a ||| (b <<< 6) ||| (d <<< 7)) >>> 7) &&& 1 = d := by
    decide
  have ha : cause % 64 < 64 := Nat.mod_lt _ (by decide)
  have hb : pn % 2 < 2 := Nat.mod_lt _ (by decide)
  have hd : t % 2 < 2 := Nat.mod_lt _ (by decide)
  exact key _ ha _ hb _ hd

/-- C5: ACTIVATION = 6, ACTCONFIRM = 7, ACTTERM = 10; every declared cause is
non-zero and below 64, the causes are pairwise distinct, and the low 6 bits of
a COT octet built from a declared cause are that cause, whatever the P/N and
T bits are. -/
theorem cause_constants :
    iec104_class.ACTIVATION = 6 ∧ iec104_class.ACTCONFIRM = 7 ∧ iec104_class.ACTTERM = 10 ∧
    (∀ c ∈ iec104_class.causes, c ≠ 0 ∧ c < 64) ∧
    iec104_class.causes.Pairwise (fun a b => a ≠ b) ∧
    (∀ c ∈ iec104_class.causes, ∀ pn t : Nat, cot_cause (cot_octet c pn t) = c) := by
  refine ⟨rfl, rfl, rfl, by decide, by decide, ?_⟩
  intro c hc pn t
  have hlt : c < 64 := by
    have hall : ∀ x ∈ iec104_class.causes, x < 64 := by decide
    exact hall c hc
  rw [cot_cause_cot_octet, Nat.mod_eq_of_lt hlt]

/-- C7: the timer constants are t1_startdtact = 6, t2_supervisory = 8,
t3_testfr = 10 and gi_retry_time = 45 (seconds). -/
theorem timer_constants :
    iec104_class.t1_startdtact = 6 ∧ iec104_class.t2_supervisory = 8 ∧
    iec104_class.t3_testfr = 10 ∧ iec104_class.gi_retry_time = 45 := by
  decide

/-- C8: SELECT = 1, EXECUTE = 0, POSITIVE = 0, NEGATIVE = 1; each is 0 or 1;
the 1-bit members `se` and `pn` of iec_obj give each back unchanged after it
is stored; SELECT differs from EXECUTE and POSITIVE from NEGATIVE. -/
theorem qualifier_constants :
    iec104_class.SELECT = 1 ∧ iec104_class.EXECUTE = 0 ∧
    iec104_class.POSITIVE = 0 ∧ iec104_class.NEGATIVE = 1 ∧
    (∀ q ∈ [iec104_class.SELECT, iec104_class.EXECUTE, iec104_class.POSITIVE,
      iec104_class.NEGATIVE], q = 0 ∨ q = 1) ∧
    (∀ o : iec_obj, (o.set_se iec104_class.SELECT).se = iec104_class.SELECT ∧
      (o.set_se iec104_class.EXECUTE).se = iec104_class.EXECUTE ∧
      (o.set_pn iec104_class.POSITIVE).pn = iec104_class.POSITIVE ∧
      (o.set_pn iec104_class.NEGATIVE).pn = iec104_class.NEGATIVE) ∧
    iec104_class.SELECT ≠ iec104_class.EXECUTE ∧
    iec104_class.POSITIVE ≠ iec104_class.NEGATIVE := by
  refine ⟨rfl, rfl, rfl, rfl, by decide, ?_, by decide, by decide⟩
  intro o
  exact ⟨rfl, rfl, rfl, rfl⟩

/-! ## Properties of iec_obj -/

/-- A value is kept by a store into `w` bits exactly when it is below 2^w. -/
theorem bitfield_store_eq_iff (w v : Nat) : bitfield_store w v = v ↔ v < 2 ^ w := by
  unfold bitfield_store
  constructor
  · intro h
    rw [← h]
    exact Nat.mod_lt _ (Nat.two_pow_pos w)
  · exact Nat.mod_eq_of_lt

/-- Reading a member of a union after writing it gives the stored value
modulo 2^w. -/
theorem union_load_store (w unit v : Nat) :
    union_load w (union_store w unit v) = v % 2 ^ w := by
  unfold union_load union_store bitfield_store
  rw [Nat.add_comm, Nat.add_mul_mod_self_right, Nat.mod_mod]

/-- A narrower member of a union reads the low bits of a wider one. -/
theorem union_load_load (w1 w2 unit : Nat) (h : w1 ≤ w2) :
    union_load w1 unit = union_load w2 unit % 2 ^ w1 := by
  unfold union_load
  rw [Nat.mod_mod_of_dvd _ (Nat.pow_dvd_pow 2 h)]

/-- C9: for every unsigned value v, `qu` and `sq` read back v mod 32 after v
is stored, so exactly the values 0..31 survive; `se`, `cy` and `cadj` read
back v mod 2; and `bcr` reads back v mod 2^32, so every value in 0..2^32-1
comes back unchanged. -/
theorem iec_obj_field_widths (o : iec_obj) (v : Nat) :
    (o.set_qu v).qu = v % 32 ∧ (o.set_sq v).sq = v % 32 ∧
    ((o.set_qu v).qu = v ↔ v < 32) ∧ ((o.set_sq v).sq = v ↔ v < 32) ∧
    (o.set_se v).se = v % 2 ∧ (o.set_cy v).cy = v % 2 ∧ (o.set_cadj v).cadj = v % 2 ∧
    (o.set_bcr v).bcr = v % 2 ^ 32 ∧ ((o.set_bcr v).bcr = v ↔ v < 2 ^ 32) := by
  refine ⟨rfl, rfl, bitfield_store_eq_iff 5 v, bitfield_store_eq_iff 5 v, rfl, rfl, rfl, ?_, ?_⟩
  · exact union_load_store 32 o.value_union v
  · show union_load 32 (union_store 32 o.value_union v) = v ↔ v < 2 ^ 32
    rw [union_load_store]
    exact bitfield_store_eq_iff 32 v

/-- C10: the members of each anonymous union are views of the same storage
from bit 0. In every state ov = sp = scs, dp = dcs = rcs and sp = dp mod 2;
kpa = qpa mod 64, frz = qpa mod 4 and frz = kpa mod 4. A write of frz sets
the low two bits of kpa and keeps its upper four, a write of dp sets sp and
ov, and the members are not independent: writing dp = 1 into the zeroed
object changes sp and ov, writing frz = 1 changes kpa. -/
theorem iec_obj_union_overlap (o : iec_obj) (v : Nat) :
    o.ov = o.sp ∧ o.sp = o.scs ∧ o.dp = o.dcs ∧ o.dcs = o.rcs ∧ o.sp = o.dp % 2 ∧
    o.kpa = o.qpa % 64 ∧ o.frz = o.qpa % 4 ∧ o.frz = o.kpa % 4 ∧
    (o.set_frz v).kpa % 4 = v % 4 ∧ (o.set_frz v).kpa / 4 = o.kpa / 4 ∧
    (o.set_dp v).sp = v % 2 ∧ (o.set_dp v).ov = v % 2 ∧
    (iec_obj.zero.set_dp 1).sp ≠ iec_obj.zero.sp ∧
    (iec_obj.zero.set_dp 1).ov ≠ iec_obj.zero.ov ∧
    (iec_obj.zero.set_frz 1).kpa ≠ iec_obj.zero.kpa := by
  refine ⟨rfl, rfl, rfl, rfl, ?_, ?_, ?_, ?_, ?_, ?_, ?_, ?_, by decide, by decide, by decide⟩
  · exact union_load_load 1 2 o.state_union (by decide)
  · exact union_load_load 6 8 o.value_union (by decide)
  · exact union_load_load 2 8 o.value_union (by decide)
  · exact union_load_load 2 6 o.value_union (by decide)
  · show (o.value_union / 2 ^ 2 * 2 ^ 2 + v % 2 ^ 2) % 2 ^ 6 % 4 = v % 4
    omega
  · show (o.value_union / 2 ^ 2 * 2 ^ 2 + v % 2 ^ 2) % 2 ^ 6 / 4 = o.value_union % 2 ^ 6 / 4
    omega
  · show (o.state_union / 2 ^ 2 * 2 ^ 2 + v % 2 ^ 2) % 2 ^ 1 = v % 2
    omega
  · show (o.state_union / 2 ^ 2 * 2 ^ 2 + v % 2 ^ 2) % 2 ^ 1 = v % 2
    omega

/-! ## Properties of the engine -/

namespace iec104_class

/-- Sending an S-frame leaves the receive counter alone. -/
theorem sendSupervisory_VR (s : iec104_class) : (sendSupervisory s).VR = s.VR := rfl

/-- With accounting off an I-frame that the codec does not reject leaves the
whole sequence state alone. -/
theorem parseAPDU_no_accounting (payload_size : Nat → Option Nat) (s : iec104_class)
    (papdu : iec_apdu) (sz : Nat) (hframed : papdu.well_framed sz = true)
    (hI : apci_classify papdu.c1 = apci_format.I)
    (hcodec : codec_check payload_size papdu.asdu ≠ codec_verdict.mismatch) :
    parseAPDU payload_size s papdu sz false = Except.ok s := by
  have hfr : ¬ (papdu.well_framed sz = false) := by
    rw [hframed]
    exact Bool.noConfusion
  unfold parseAPDU
  rw [if_neg hfr, hI]
  dsimp only
  rw [if_neg Bool.noConfusion]
  unfold decode_I
  rw [if_neg hcodec]

end iec104_class

/-- C4: in the STOPPED state (TxOk false) sendCommand returns false for every
command object, and the connection, with the record of the frames handed to
the transport, is left as it was: no ASDU is emitted. -/
theorem sendCommand_stopped (payload : iec_obj → List Nat) (s : iec104_class) (obj : iec_obj)
    (h : s.TxOk = false) :
    (iec104_class.sendCommand payload s obj).1 = false ∧
    (iec104_class.sendCommand payload s obj).2 = s ∧
    (iec104_class.sendCommand payload s obj).2.sent = s.sent := by
  unfold iec104_class.sendCommand
  rw [if_pos h]
  exact ⟨rfl, rfl, rfl⟩

/-- Witness of C4: the command of scenario S5 is refused while the STARTDT
confirmation is outstanding. -/
theorem sendCommand_stopped_witness :
    startdt_pending.TxOk = false ∧
    (iec104_class.sendCommand (fun o => [single_command_octet o]) startdt_pending
      S5_command).1 = false ∧
    (iec104_class.sendCommand (fun o => [single_command_octet o]) startdt_pending
      S5_command).2 = startdt_pending ∧
    (iec104_class.sendCommand (fun o => [single_command_octet o]) startdt_pending
      S5_command).2.sent = startdt_pending.sent :=
  ⟨rfl, sendCommand_stopped (fun o => [single_command_octet o]) startdt_pending S5_command rfl⟩

/-- In the started connection of scenario S2 the command of scenario S5 is
accepted and goes out as one I-frame with TI = 45, COT = 6, CA = 1,
IOA = 100 and the command octet 01. -/
theorem sendCommand_started :
    ∃ s, S2_state = Except.ok s ∧
      (iec104_class.sendCommand (fun o => [single_command_octet o]) s S5_command).1 = true ∧
      (iec104_class.sendCommand (fun o => [single_command_octet o]) s S5_command).2.sent =
        s.sent ++ [[0x68, 0x0E, 0x00, 0x00, 0x00, 0x00, 0x2D, 0x01, 0x06, 0x00, 0x01, 0x00,
          0x64, 0x00, 0x00, 0x01]] ∧
      (iec104_class.sendCommand (fun o => [single_command_octet o]) s S5_command).2.VS = 1 :=
  ⟨_, rfl, rfl, rfl, rfl⟩

/-- C6: a general interrogation request uses C_IC_NA_1 = 100 = 0x64 =
INTERROGATION, cause ACTIVATION = 6 and QOI = 20, the default of the group
argument of solicitInterrogation; with START = 0x68 these are the octets at
positions 0, 6, 8 and 15 of the frame of scenario S2, and that frame is what
solicitGI hands to the transport in the started connection of the scenario
(VS = VR = 0, originator address 0, common address 1). -/
theorem general_interrogation_request :
    iec104_class.C_IC_NA_1 = 100 ∧ iec104_class.C_IC_NA_1 = 0x64 ∧
    iec104_class.C_IC_NA_1 = iec104_class.INTERROGATION ∧
    iec104_class.ACTIVATION = 6 ∧ iec104_class.solicitInterrogation_group_default = 20 ∧
    iec104_class.START = 0x68 ∧
    S2_GI_frame[0]? = some iec104_class.START ∧
    S2_GI_frame[6]? = some iec104_class.C_IC_NA_1 ∧
    S2_GI_frame[8]? = some iec104_class.ACTIVATION ∧
    S2_GI_frame[15]? = some iec104_class.solicitInterrogation_group_default ∧
    S2_GI_frame.length = 16 ∧
    ∃ s, S2_state = Except.ok s ∧ s.TxOk = true ∧ s.VS = 0 ∧ s.VR = 0 ∧
      (iec104_class.solicitGI s).sent = s.sent ++ [S2_GI_frame] ∧
      (iec104_class.solicitInterrogation s
        iec104_class.solicitInterrogation_group_default).sent = s.sent ++ [S2_GI_frame] :=
  ⟨rfl, rfl, rfl, rfl, rfl, rfl, rfl, rfl, rfl, rfl, rfl, _, rfl, rfl, rfl, rfl, rfl, rfl⟩
